import Mathlib

/-!
Verification of the nocodb-mcp-server-http repository.

The first part embeds the session-oriented SSE transport layer of
`src/server.ts` (the `startHttpServer` function): the `transports` registry,
the per-connection keep-alive interval and `writableEnded` flag, the
`res.on("close")` handler, the `mcpServer.connect` failure path, and the
`POST /messages` correlated-request endpoint.

The second part embeds the backend client adapter of `src/nocodbApi.ts`
(`getTableId`, `getRecords`, `postRecords`, `patchRecords`, `deleteRecords`,
`getTableMetadata`, `alterTableAddColumn`, `getListTables`, `createTable`),
with each backend HTTP response supplied as an explicit oracle argument so
the request/response data flow and the try/catch error flow are pure.
-/

namespace NocodbMcp

/-- Per-connection state captured by the closures of the `GET /sse` handler in
`src/server.ts`: whether `keepAliveInterval` is still scheduled (i.e. has not
been cleared by `clearInterval`), and the Node `res.writableEnded` flag of the
SSE response stream. -/
structure ConnState where
  timerActive : Bool
  writableEnded : Bool
deriving DecidableEq, Repr

/-- The state of the HTTP server: the `transports` registry of
`src/server.ts` line 16 (modelled by its set of keys, since the transport
objects themselves are opaque SDK values), together with the per-connection
closure state, keyed by session id.  Entries of `conns` persist after the
registry entry is deleted, mirroring the fact that the closed-over
`keepAliveInterval` and `res` objects outlive `delete transports[sessionId]`. -/
structure ServerState where
  transports : List String
  conns : List (String × ConnState)
deriving DecidableEq, Repr

/-- The empty server state: `const transports: ActiveTransports = {}`. -/
def initState : ServerState := ⟨[], []⟩

/-- Look up the connection state recorded for a session id (first match). -/
def lookupConn (conns : List (String × ConnState)) (sid : String) :
    Option ConnState :=
  (conns.find? (fun p => p.1 == sid)).map (fun p => p.2)

/-- Update the connection state recorded under a session id. -/
def updateConn (conns : List (String × ConnState)) (sid : String)
    (f : ConnState → ConnState) : List (String × ConnState) :=
  conns.map (fun p => if p.1 = sid then (p.1, f p.2) else p)

/-- The `GET /sse` handler (`src/server.ts` lines 19-57): a new
`SSEServerTransport` is created for the response stream, its minted session
id is registered in `transports` (property assignment: an existing key would
be overwritten, a new key is added), the keep-alive interval is scheduled
(`timerActive := true`) and the stream is open (`writableEnded := false`). -/
def openSession (s : ServerState) (sid : String) : ServerState :=
  { transports := if sid ∈ s.transports then s.transports else sid :: s.transports,
    conns := (sid, ⟨true, false⟩) :: s.conns }

/-- Modelled from the spec: the session id of a freshly created
`SSEServerTransport` is minted by the SDK (a random UUID), which the spec
describes as "For all valid `OpenSession` calls, the returned id is unique
among currently-live sessions"; the SDK itself is outside `src/`.  A minted id
is fresh for the current registry. -/
def mintedFresh (s : ServerState) (sid : String) : Prop :=
  sid ∉ s.transports

/-- The `res.on("close")` handler (`src/server.ts` lines 46-53): on peer
disconnect it runs `clearInterval(keepAliveInterval)` and then
`delete transports[sessionId]`. -/
def closeHandler (s : ServerState) (sid : String) : ServerState :=
  { transports := s.transports.erase sid,
    conns := updateConn s.conns sid (fun c => { c with timerActive := false }) }

/-- The `catch` branch of `mcpServer.connect` (`src/server.ts` lines 59-65):
`clearInterval(keepAliveInterval)`, then, if the stream has not ended,
`res.status(500).end(...)` — after which `writableEnded` is true either way. -/
def connectFail (s : ServerState) (sid : String) : ServerState :=
  { s with conns := updateConn s.conns sid (fun _ => { timerActive := false, writableEnded := true }) }

/-- One firing of the keep-alive interval (`src/server.ts` lines 37-43).  A
cleared interval never fires (`timerActive = false` is a no-op); otherwise
the callback writes `: keep-alive` when `!res.writableEnded` and runs
`clearInterval(keepAliveInterval)` when the stream has ended.  The returned
Boolean records whether a frame was written to the stream. -/
def tick (s : ServerState) (sid : String) : ServerState × Bool :=
  match lookupConn s.conns sid with
  | none => (s, false)
  | some c =>
    if c.timerActive then
      if c.writableEnded then
        ({ s with conns := updateConn s.conns sid (fun c => { c with timerActive := false }) }, false)
      else (s, true)
    else (s, false)

/-- The 25000 ms period of the keep-alive interval (`src/server.ts` line 43). -/
def keepAliveDelayMs : Nat := 25000

/-- Observable outcome of one `POST /messages` request: the HTTP status set
by the handler itself (`none` when the request was delegated to the SDK
transport, which writes its own response), and whether
`transport.handlePostMessage` was invoked — the only path on which a tool can
be invoked and a backend call made. -/
structure PostOutcome where
  status : Option Nat
  delegated : Bool
deriving DecidableEq, Repr

/-- The `POST /messages` handler (`src/server.ts` lines 70-96):
`req.query.sessionId` may be absent (`none`); the transport is looked up in
the registry; if present the request is delegated to
`transport.handlePostMessage`, otherwise the handler responds
`res.status(400).send(...)` and performs no further action. -/
def handleMessages (s : ServerState) (q : Option String) :
    ServerState × PostOutcome :=
  match q with
  | none => (s, ⟨some 400, false⟩)
  | some sid =>
    if sid ∈ s.transports then (s, ⟨none, true⟩)
    else (s, ⟨some 400, false⟩)

/-- The events that drive the transport layer: a new SSE connection, a
`mcpServer.connect` rejection, a peer disconnect, a keep-alive interval
firing, and a correlated `POST /messages` request. -/
inductive Event where
  | openConn (sid : String)
  | connectErr (sid : String)
  | peerClose (sid : String)
  | timerFire (sid : String)
  | postMsg (q : Option String)
deriving DecidableEq, Repr

/-- The state transition for one event. -/
def step (s : ServerState) (e : Event) : ServerState :=
  match e with
  | .openConn sid => openSession s sid
  | .connectErr sid => connectFail s sid
  | .peerClose sid => closeHandler s sid
  | .timerFire sid => (tick s sid).1
  | .postMsg q => (handleMessages s q).1

/-- The state reached from the empty registry after a sequence of events. -/
def run (es : List Event) : ServerState := es.foldl step initState

/- ### Helper lemmas about the transport layer -/

lemma lookupConn_updateConn (l : List (String × ConnState)) (sid : String)
    (f : ConnState → ConnState) :
    lookupConn (updateConn l sid f) sid = (lookupConn l sid).map f := by
  induction l with
  | nil => simp [lookupConn, updateConn]
  | cons hd tl ih =>
    by_cases h : hd.1 = sid
    · simp [lookupConn, updateConn, List.find?_cons, h]
    · have hb : (hd.1 == sid) = false := by simpa using h
      simp only [lookupConn, updateConn, List.map_cons, if_neg h,
        List.find?_cons, hb] at ih ⊢
      simpa [lookupConn, updateConn] using ih

lemma updateConn_updateConn (l : List (String × ConnState)) (sid : String)
    (f g : ConnState → ConnState) :
    updateConn (updateConn l sid f) sid g = updateConn l sid (g ∘ f) := by
  simp only [updateConn, List.map_map]
  apply List.map_congr_left
  intro p _
  by_cases h : p.1 = sid <;> simp [h]

lemma updateConn_of_lookup_none (l : List (String × ConnState)) (sid : String)
    (f : ConnState → ConnState) (h : lookupConn l sid = none) :
    updateConn l sid f = l := by
  have h' : ∀ p ∈ l, ¬(p.1 == sid) = true := by
    simpa [lookupConn, Option.map_eq_none', List.find?_eq_none] using h
  unfold updateConn
  have hmap : l.map (fun p => if p.1 = sid then (p.1, f p.2) else p) = l.map id := by
    apply List.map_congr_left
    intro p hp
    have hne : p.1 ≠ sid := by simpa [beq_iff_eq] using h' p hp
    simp [hne]
  rw [hmap, List.map_id]

lemma tick_fst_transports (s : ServerState) (sid : String) :
    (tick s sid).1.transports = s.transports := by
  unfold tick
  rcases lookupConn s.conns sid with _ | c
  · rfl
  · by_cases ht : c.timerActive <;> by_cases hw : c.writableEnded <;> simp [ht, hw]

lemma handleMessages_fst (s : ServerState) (q : Option String) :
    (handleMessages s q).1 = s := by
  cases q with
  | none => rfl
  | some sid => by_cases h : sid ∈ s.transports <;> simp [handleMessages, h]

lemma step_transports_nodup (s : ServerState) (e : Event)
    (h : s.transports.Nodup) : (step s e).transports.Nodup := by
  cases e with
  | openConn sid =>
    simp only [step, openSession]
    split
    · exact h
    · exact List.nodup_cons.mpr ⟨by assumption, h⟩
  | connectErr sid => simpa [step, connectFail] using h
  | peerClose sid => exact h.erase sid
  | timerFire sid =>
    simpa [step, tick_fst_transports] using h
  | postMsg q =>
    simpa [step, handleMessages_fst] using h

lemma foldl_step_nodup (es : List Event) (s : ServerState)
    (h : s.transports.Nodup) : (es.foldl step s).transports.Nodup := by
  induction es generalizing s with
  | nil => simpa using h
  | cons e es ih => exact ih (step s e) (step_transports_nodup s e h)

lemma run_transports_nodup (es : List Event) : (run es).transports.Nodup :=
  foldl_step_nodup es initState (by simp [initState])

/- ### JSON-like values -/

/-- JSON-like values exchanged with the NocoDB backend (the `data` bodies and
`response.data` payloads of `src/nocodbApi.ts`).  Objects are ordered field
lists, as in JavaScript. -/
inductive JVal where
  | null
  | bool (b : Bool)
  | num (n : Int)
  | str (s : String)
  | arr (elems : List JVal)
  | obj (fields : List (String × JVal))
deriving BEq, Repr

/-- JavaScript object-spread update: the field list of `{ ...fields, k: v }`.
If `fields` already has key `k` its value is replaced in place (JS keeps the
original property position); otherwise `(k, v)` is appended. -/
def setKey (fields : List (String × JVal)) (k : String) (v : JVal) :
    List (String × JVal) :=
  if fields.any (fun p => p.1 == k) then
    fields.map (fun p => if p.1 == k then (p.1, v) else p)
  else fields ++ [(k, v)]

/-- Property access on a JSON object (first matching key). -/
def getKey (fields : List (String × JVal)) (k : String) : Option JVal :=
  (fields.find? (fun p => p.1 == k)).map (fun p => p.2)

/- ### Backend client adapter (`src/nocodbApi.ts`) -/

/-- An HTTP-level failure raised by the axios client: its message and, when
the backend answered at all, the response status. -/
structure BackendErr where
  message : String
  status : Option Nat
deriving DecidableEq, Repr

/-- The outcome of one backend HTTP call, supplied as an oracle: either the
parsed `response.data` or a thrown error. -/
inductive HttpResult (α : Type) where
  | ok (data : α)
  | err (e : BackendErr)
deriving DecidableEq, Repr

/-- One entry of the `response.data.list` returned by the
`/api/v2/meta/bases/.../tables` endpoint, as read by `getTableId` and
`getListTables`: the backend table id and its human-readable title. -/
structure TableMeta where
  id : String
  title : String
deriving DecidableEq, Repr

/-- `response.data.list || []`: a missing `list` field yields the empty
table list. -/
def tablesOf (data : Option (List TableMeta)) : List TableMeta := data.getD []

/-- `getTableId` (`src/nocodbApi.ts` lines 8-28).  The table listing is
fetched; `tables.find(t => t.title === tableName)` resolves the name; when no
table matches, `new Error("Table '<name>' not found")` is thrown inside the
`try`, is caught by the surrounding `catch`, and is re-thrown as
`Error("Error retrieving table ID: <message>")` — so both an HTTP failure of
the listing call and a missing table surface with that prefix. -/
def getTableIdRun (metaResp : HttpResult (Option (List TableMeta)))
    (tableName : String) : Except BackendErr String :=
  match metaResp with
  | .err e =>
    .error { message := "Error retrieving table ID: " ++ e.message, status := none }
  | .ok data =>
    match (tablesOf data).find? (fun t => t.title == tableName) with
    | some t => .ok t.id
    | none =>
      .error { message := "Error retrieving table ID: " ++ ("Table '" ++ tableName ++ "' not found"), status := none }

/-- The `offset` parameter contract of the `nocodb-get-records` tool
(`src/mcpTools.ts` line 25): `z.number().int().nonnegative()` — zero is
accepted. -/
def offsetParamAccepts (n : Int) : Bool := 0 ≤ n

/-- The `paramsArray` built by `getRecords` (`src/nocodbApi.ts` lines 43-48):
each optional parameter is pushed exactly when JavaScript finds it truthy —
a string is truthy when defined and non-empty, a number when defined and
non-zero. -/
def getRecordsParamsArray (filters : Option String) (limit offset : Option Int)
    (sort fieldsP : Option String) : List String :=
  (match filters with
   | some v => if v = "" then [] else ["where=" ++ v]
   | none => [])
  ++ (match limit with
   | some v => if v = 0 then [] else ["limit=" ++ toString v]
   | none => [])
  ++ (match offset with
   | some v => if v = 0 then [] else ["offset=" ++ toString v]
   | none => [])
  ++ (match sort with
   | some v => if v = "" then [] else ["sort=" ++ v]
   | none => [])
  ++ (match fieldsP with
   | some v => if v = "" then [] else ["fields=" ++ v]
   | none => [])

/-- The query string of `getRecords` (`src/nocodbApi.ts` line 50):
`paramsArray.length > 0 ? "?" + paramsArray.join("&") : ""`. -/
def getRecordsQueryString (filters : Option String) (limit offset : Option Int)
    (sort fieldsP : Option String) : String :=
  let paramsArray := getRecordsParamsArray filters limit offset sort fieldsP
  if paramsArray.length > 0 then "?" ++ String.intercalate "&" paramsArray else ""

/-- The request URL of `getRecords` (`src/nocodbApi.ts` line 51). -/
def getRecordsRequestUrl (tableId : String) (filters : Option String)
    (limit offset : Option Int) (sort fieldsP : Option String) : String :=
  "/api/v2/tables/" ++ tableId ++ "/records"
    ++ getRecordsQueryString filters limit offset sort fieldsP

/-- One optional field of a serialized JSON object: present exactly when the
JavaScript value is defined (`JSON.stringify` drops `undefined` properties). -/
def optKey (k : String) : Option JVal → List (String × JVal)
  | some v => [(k, v)]
  | none => []

/-- The fields of the `input` object of the `getRecords` return value
(`src/nocodbApi.ts` line 59): the object literal
`{ tableName, filters, limit, offset, sort, fields }` as it appears in the
tool handler's `JSON.stringify` output, where `undefined` optional
parameters are dropped. -/
def getRecordsInputFields (tableName : String) (filters : Option String)
    (limit offset : Option Int) (sort fieldsP : Option String) :
    List (String × JVal) :=
  [("tableName", .str tableName)]
    ++ optKey "filters" (filters.map .str)
    ++ optKey "limit" (limit.map .num)
    ++ optKey "offset" (offset.map .num)
    ++ optKey "sort" (sort.map .str)
    ++ optKey "fields" (fieldsP.map .str)

/-- The `input` object of the `getRecords` return value as a JSON value. -/
def getRecordsInputJson (tableName : String) (filters : Option String)
    (limit offset : Option Int) (sort fieldsP : Option String) : JVal :=
  .obj (getRecordsInputFields tableName filters limit offset sort fieldsP)

/-- The `{ input, output }` envelope returned by the record tools. -/
structure ToolPayload where
  input : JVal
  output : JVal
deriving BEq, Repr

/-- The outcome of one adapter operation: its returned value or thrown
error, plus whether the operation's main backend call (the one following
`getTableId`) was actually issued. -/
structure OpRun (α : Type) where
  result : Except BackendErr α
  mainCallIssued : Bool

/-- `getRecords` (`src/nocodbApi.ts` lines 33-69): resolve the table id
(aborting before the records call if that throws), issue the records GET,
and either return `{ input, output: response.data }` or — in the `catch` —
log and `throw error`, re-raising the records-call failure unchanged. -/
def getRecordsRun (metaResp : HttpResult (Option (List TableMeta)))
    (tableName : String) (filters : Option String) (limit offset : Option Int)
    (sort fieldsP : Option String) (recResp : HttpResult JVal) :
    OpRun ToolPayload :=
  match getTableIdRun metaResp tableName with
  | .error e => { result := .error e, mainCallIssued := false }
  | .ok _tableId =>
    match recResp with
    | .ok d =>
      { result := .ok { input := getRecordsInputJson tableName filters limit offset sort fieldsP, output := d },
        mainCallIssued := true }
    | .err e => { result := .error e, mainCallIssued := true }

/-- `postRecords` (`src/nocodbApi.ts` lines 71-92): resolve the table id,
POST `data`, return `{ output: response.data, input: data }`, and re-raise a
POST failure unchanged. -/
def postRecordsRun (metaResp : HttpResult (Option (List TableMeta)))
    (tableName : String) (data : JVal) (postResp : HttpResult JVal) :
    OpRun ToolPayload :=
  match getTableIdRun metaResp tableName with
  | .error e => { result := .error e, mainCallIssued := false }
  | .ok _tableId =>
    match postResp with
    | .ok d => { result := .ok { input := data, output := d }, mainCallIssued := true }
    | .err e => { result := .error e, mainCallIssued := true }

/-- The PATCH body of `patchRecords` (`src/nocodbApi.ts` line 98):
`{ ...data, id: rowId }`. -/
def patchBody (data : List (String × JVal)) (rowId : Int) :
    List (String × JVal) :=
  setKey data "id" (.num rowId)

/-- `patchRecords` (`src/nocodbApi.ts` lines 94-116): resolve the table id,
PATCH the body `{ ...data, id: rowId }`, return
`{ output: response.data, input: patchData }`, and re-raise a PATCH failure
unchanged. -/
def patchRecordsRun (metaResp : HttpResult (Option (List TableMeta)))
    (tableName : String) (rowId : Int) (data : List (String × JVal))
    (patchResp : HttpResult JVal) : OpRun ToolPayload :=
  match getTableIdRun metaResp tableName with
  | .error e => { result := .error e, mainCallIssued := false }
  | .ok _tableId =>
    match patchResp with
    | .ok d =>
      { result := .ok { input := .obj (patchBody data rowId), output := d },
        mainCallIssued := true }
    | .err e => { result := .error e, mainCallIssued := true }

/-- `deleteRecords` (`src/nocodbApi.ts` lines 118-137): resolve the table id,
DELETE with body `{ id: rowId }`, return `response.data`, and re-raise a
failure unchanged. -/
def deleteRecordsRun (metaResp : HttpResult (Option (List TableMeta)))
    (tableName : String) (rowId : Int) (delResp : HttpResult JVal) :
    OpRun JVal :=
  match getTableIdRun metaResp tableName with
  | .error e => { result := .error e, mainCallIssued := false }
  | .ok _tableId =>
    match delResp with
    | .ok d => { result := .ok d, mainCallIssued := true }
    | .err e => { result := .error e, mainCallIssued := true }

/-- `getTableMetadata` (`src/nocodbApi.ts` lines 324-340): resolve the table
id, GET the table metadata, and wrap a failure of that GET as
`Error("Error getting table metadata: <message>")`. -/
def getTableMetadataRun (metaResp : HttpResult (Option (List TableMeta)))
    (tableName : String) (tableResp : HttpResult JVal) : OpRun JVal :=
  match getTableIdRun metaResp tableName with
  | .error e => { result := .error e, mainCallIssued := false }
  | .ok _tableId =>
    match tableResp with
    | .ok d => { result := .ok d, mainCallIssued := true }
    | .err e =>
      { result := .error { message := "Error getting table metadata: " ++ e.message, status := none },
        mainCallIssued := true }

/-- Link-specific options of `alterTableAddColumn`
(`src/nocodbApi.ts` lines 343-347). -/
structure LinkColumnOptions where
  parentId : String
  childId : String
  relationType : String
deriving DecidableEq, Repr

/-- `alterTableAddColumn` (`src/nocodbApi.ts` lines 349-400): resolve the
table id; for a `LinkToAnotherRecord` column without options throw before any
POST; otherwise POST the column payload and wrap a failure as
`Error("Error adding column: <message>")`. -/
def alterTableAddColumnRun (metaResp : HttpResult (Option (List TableMeta)))
    (tableName columnName columnType : String)
    (options : Option LinkColumnOptions) (postResp : HttpResult JVal) :
    OpRun JVal :=
  match getTableIdRun metaResp tableName with
  | .error e => { result := .error e, mainCallIssued := false }
  | .ok _tableId =>
    if columnType = "LinkToAnotherRecord" ∧ options = none then
      { result := .error { message := "Missing required options (parentId, relationType) for LinkToAnotherRecord column type.", status := none },
        mainCallIssued := false }
    else
      match postResp with
      | .ok d => { result := .ok d, mainCallIssued := true }
      | .err e =>
        { result := .error { message := "Error adding column: " ++ e.message, status := none },
          mainCallIssued := true }

/-- `getListTables` (`src/nocodbApi.ts` lines 306-322): GET the table
listing, return the titles, and wrap a failure as
`Error("Error getting list of tables: <message>")`. -/
def getListTablesRun (metaResp : HttpResult (Option (List TableMeta))) :
    Except BackendErr (List String) :=
  match metaResp with
  | .ok data => .ok ((tablesOf data).map (fun t => t.title))
  | .err e =>
    .error { message := "Error getting list of tables: " ++ e.message, status := none }

/-- A column definition passed to `createTable`
(`src/nocodbApi.ts` lines 421-424). -/
structure TableColumnType where
  title : String
  uidt : String
deriving DecidableEq, Repr

/-- JavaScript's `toLowerCase()`, modelled as the character-wise lowercase
map (`String.toLower` is this same map; this spelling reduces in the
kernel). -/
def lowerString (s : String) : String := String.mk (s.data.map Char.toLower)

/-- The Id-column check and unshift of `createTable`
(`src/nocodbApi.ts` lines 429-433): when no column's title equals `"id"`
case-insensitively (`col.title.toLowerCase() === "id"`),
`{ title: "Id", uidt: "ID" }` is prepended (`columnsData.unshift`, mutating
the caller's array in place). -/
def ensureIdColumn (columnsData : List TableColumnType) : List TableColumnType :=
  if columnsData.any (fun col => lowerString col.title == "id") then columnsData
  else ⟨"Id", "ID"⟩ :: columnsData

/-- The `columns` field of the `createTable` request payload
(`src/nocodbApi.ts` line 438): the (possibly Id-prefixed) column list mapped
through `col => ({ title: col.title, uidt: col.uidt })`. -/
def createTablePayloadColumns (columnsData : List TableColumnType) :
    List TableColumnType :=
  (ensureIdColumn columnsData).map (fun col => ⟨col.title, col.uidt⟩)

/- ### Claims about the session transport layer -/

/-- C1: a POST to `/messages` whose `sessionId` query parameter is missing,
was never issued, or belongs to a session already closed (its `close` handler
has run) responds with HTTP status 400 and produces no side effect: the
server state is unchanged and the request is never delegated to a transport,
so no tool is invoked and no backend call is made. -/
theorem post_unknown_session_rejected (s : ServerState) (q : Option String)
    (sid : String) (hn : s.transports.Nodup)
    (hq : q = none ∨ ∃ sid0, q = some sid0 ∧ sid0 ∉ s.transports) :
    handleMessages s q = (s, ⟨some 400, false⟩)
    ∧ handleMessages (closeHandler s sid) (some sid)
      = (closeHandler s sid, ⟨some 400, false⟩) := by
  constructor
  · rcases hq with hq | ⟨sid0, rfl, hmem⟩
    · subst hq; rfl
    · simp [handleMessages, hmem]
  · have hmem : sid ∉ (closeHandler s sid).transports := by
      intro hmem
      exact ((hn.mem_erase_iff.mp hmem).1) rfl
    simp [handleMessages, hmem]

/-- Witness for C1 at a concrete state: session `S1` is live, `S2` was never
issued. -/
theorem post_unknown_session_rejected_witness :
    (openSession initState "S1").transports.Nodup
    ∧ handleMessages (openSession initState "S1") (some "S2")
      = (openSession initState "S1", ⟨some 400, false⟩) :=
  ⟨by decide,
   (post_unknown_session_rejected (openSession initState "S1") (some "S2") "S1"
      (by decide) (Or.inr ⟨"S2", rfl, by decide⟩)).1⟩

/-- C2: every state of the `transports` registry reachable from startup holds
each session id at most once; registering a freshly minted id (the GET /sse
handler) adds an id distinct from every currently-live session id — so an id
is never reused while its session is live. -/
theorem session_id_unique (es : List Event) (s : ServerState) (sid : String)
    (hfresh : mintedFresh s sid) :
    (run es).transports.Nodup
    ∧ (openSession s sid).transports = sid :: s.transports
    ∧ sid ∈ (openSession s sid).transports
    ∧ ∀ t ∈ s.transports, sid ≠ t := by
  have hf : sid ∉ s.transports := hfresh
  refine ⟨run_transports_nodup es, ?_, ?_, ?_⟩
  · simp [openSession, hf]
  · simp [openSession, hf]
  · intro t ht h
    exact hf (h ▸ ht)

/-- Witness for C2: a fresh id `S2` registered next to the live session `S1`,
after an event sequence that opens, posts to, and closes sessions. -/
theorem session_id_unique_witness :
    mintedFresh (openSession initState "S1") "S2"
    ∧ (run [Event.openConn "S1", Event.postMsg (some "S1"),
        Event.peerClose "S1", Event.openConn "S2"]).transports.Nodup
    ∧ (openSession (openSession initState "S1") "S2").transports
      = "S2" :: (openSession initState "S1").transports :=
  ⟨by unfold mintedFresh; decide,
   (session_id_unique [Event.openConn "S1", Event.postMsg (some "S1"),
      Event.peerClose "S1", Event.openConn "S2"]
      (openSession initState "S1") "S2" (by unfold mintedFresh; decide)).1,
   (session_id_unique [] (openSession initState "S1") "S2"
      (by unfold mintedFresh; decide)).2.1⟩

/-- C3: closing a session is idempotent.  Running the close path twice leaves
the same state as running it once; after one close the keep-alive timer is
cancelled and the entry is absent from the registry; closing an id that is
unknown to both the registry and the connection table is a no-op.  The close
path is a total function, so no error is raised. -/
theorem close_idempotent (s : ServerState) (sid : String)
    (hn : s.transports.Nodup) :
    closeHandler (closeHandler s sid) sid = closeHandler s sid
    ∧ sid ∉ (closeHandler s sid).transports
    ∧ (∀ c, lookupConn (closeHandler s sid).conns sid = some c →
        c.timerActive = false)
    ∧ (sid ∉ s.transports → lookupConn s.conns sid = none →
        closeHandler s sid = s) := by
  have hmem : sid ∉ (closeHandler s sid).transports := by
    intro hmem
    exact ((hn.mem_erase_iff.mp hmem).1) rfl
  refine ⟨?_, hmem, ?_, ?_⟩
  · show ServerState.mk _ _ = ServerState.mk _ _
    congr 1
    · exact List.erase_of_not_mem hmem
    · rw [show (closeHandler s sid).conns
          = updateConn s.conns sid (fun c => { c with timerActive := false }) from rfl,
        updateConn_updateConn]
      rfl
  · intro c hc
    rw [show (closeHandler s sid).conns
        = updateConn s.conns sid (fun c => { c with timerActive := false }) from rfl,
      lookupConn_updateConn] at hc
    rcases hl : lookupConn s.conns sid with _ | c0
    · rw [hl] at hc; simp at hc
    · rw [hl] at hc
      simp only [Option.map_some'] at hc
      cases hc
      rfl
  · intro h1 h2
    show ServerState.mk _ _ = s
    rw [List.erase_of_not_mem h1, updateConn_of_lookup_none _ _ _ h2]

/-- Witness for C3 at a concrete state with one live session. -/
theorem close_idempotent_witness :
    (openSession initState "S1").transports.Nodup
    ∧ closeHandler (closeHandler (openSession initState "S1") "S1") "S1"
      = closeHandler (openSession initState "S1") "S1" :=
  ⟨by decide, (close_idempotent (openSession initState "S1") "S1" (by decide)).1⟩

/-- C4: once a session has been closed, a pending keep-alive tick targeting
its stream is a no-op — the state is unchanged and nothing is written; and
for any session whose stream has ended (`writableEnded`), the tick writes
nothing.  `tick` is a total function, so no exception is ever raised to the
caller. -/
theorem emit_after_close_noop (s : ServerState) (sid : String) :
    tick (closeHandler s sid) sid = (closeHandler s sid, false)
    ∧ (∀ c, lookupConn s.conns sid = some c → c.writableEnded = true →
        (tick s sid).2 = false) := by
  constructor
  · unfold tick
    rw [show (closeHandler s sid).conns
        = updateConn s.conns sid (fun c => { c with timerActive := false }) from rfl,
      lookupConn_updateConn]
    rcases hl : lookupConn s.conns sid with _ | c
    · rfl
    · simp
  · intro c hc hw
    unfold tick
    rw [hc]
    by_cases ht : c.timerActive <;> simp [ht, hw]

/-- Witness for C4: a live session whose stream has ended; its tick writes
nothing. -/
theorem emit_after_close_noop_witness :
    lookupConn [("S1", ⟨true, true⟩)] "S1" = some ⟨true, true⟩
    ∧ (tick ⟨["S1"], [("S1", ⟨true, true⟩)]⟩ "S1").2 = false :=
  ⟨by decide,
   (emit_after_close_noop ⟨["S1"], [("S1", ⟨true, true⟩)]⟩ "S1").2
     ⟨true, true⟩ (by decide) rfl⟩

/-- C5: the keep-alive timer fires on a fixed 25000 ms period (order of tens
of seconds); while the stream is writable each firing emits a frame; the
moment a firing sees the stream no longer writable it cancels itself and
emits nothing; the timer is cancelled by the close handler and by the
connect-failure path; and after the close handler has run a tick is a
no-op, so the timer never fires after the session is gone. -/
theorem keepalive_lifecycle (s : ServerState) (sid : String) (c : ConnState)
    (h : lookupConn s.conns sid = some c) :
    keepAliveDelayMs = 25000
    ∧ 10000 ≤ keepAliveDelayMs
    ∧ (c.timerActive = true → c.writableEnded = false → tick s sid = (s, true))
    ∧ (c.timerActive = true → c.writableEnded = true →
        (tick s sid).2 = false
        ∧ lookupConn (tick s sid).1.conns sid
          = some { c with timerActive := false })
    ∧ lookupConn (closeHandler s sid).conns sid
      = some { c with timerActive := false }
    ∧ lookupConn (connectFail s sid).conns sid
      = some { timerActive := false, writableEnded := true }
    ∧ tick (closeHandler s sid) sid = (closeHandler s sid, false) := by
  refine ⟨rfl, by norm_num [keepAliveDelayMs], ?_, ?_, ?_, ?_, ?_⟩
  · intro ht hw
    unfold tick
    rw [h]
    simp [ht, hw]
  · intro ht hw
    unfold tick
    rw [h]
    simp [ht, hw, lookupConn_updateConn, h]
  · rw [show (closeHandler s sid).conns
        = updateConn s.conns sid (fun c => { c with timerActive := false }) from rfl,
      lookupConn_updateConn, h]
    rfl
  · rw [show (connectFail s sid).conns
        = updateConn s.conns sid (fun _ => { timerActive := false, writableEnded := true }) from rfl,
      lookupConn_updateConn, h]
    rfl
  · unfold tick
    rw [show (closeHandler s sid).conns
        = updateConn s.conns sid (fun c => { c with timerActive := false }) from rfl,
      lookupConn_updateConn, h]
    simp

/-- Witness for C5: a live session with a writable stream. -/
theorem keepalive_lifecycle_witness :
    lookupConn [("S1", ⟨true, false⟩)] "S1" = some ⟨true, false⟩
    ∧ tick ⟨["S1"], [("S1", ⟨true, false⟩)]⟩ "S1"
      = (⟨["S1"], [("S1", ⟨true, false⟩)]⟩, true) :=
  ⟨by decide,
   ((keepalive_lifecycle ⟨["S1"], [("S1", ⟨true, false⟩)]⟩ "S1" ⟨true, false⟩
      (by decide)).2.2.1) rfl rfl⟩

/- ### Claims about the backend client adapter -/

/-- C6 (counterexample): `patchRecords` with submitted data `{ id: 99 }` and
`rowId = 5` returns an `input` of `{ id: 5 }` — the submitted data's `id`
value is overwritten and appears nowhere in the payload, so the `input`
field does not echo exactly the submitted parameters. -/
theorem roundtrip_patch_counterexample :
    (patchRecordsRun (.ok (some [⟨"tbl1", "tasks"⟩])) "tasks" 5
        [("id", JVal.num 99)] (.ok .null)).result
      = .ok { input := .obj [("id", JVal.num 5)], output := .null }
    ∧ JVal.obj [("id", JVal.num 5)] ≠ JVal.obj [("id", JVal.num 99)] := by
  exact ⟨rfl, by simp⟩

/-- C6 (amended): with the table name resolved and a reachable backend,
each record tool's payload has `output` equal to the backend's raw response
body; `getRecords`' `input` echoes exactly the submitted parameters (each
serialized field recovers the submitted value, absent exactly when the
parameter was omitted); `postRecords`' `input` is exactly the submitted
data; `patchRecords`' `input` is the body actually sent to the backend — the
submitted data with its `id` field set to `rowId` — which preserves every
submitted field verbatim (with `id: rowId` appended) whenever the submitted
data itself has no `id` key. -/
theorem roundtrip_input_echo (metaResp : HttpResult (Option (List TableMeta)))
    (tableName tid : String) (filters : Option String)
    (limit offset : Option Int) (sort fieldsP : Option String) (d : JVal)
    (rowId : Int) (data : List (String × JVal)) (dataObj : JVal)
    (hres : getTableIdRun metaResp tableName = .ok tid) :
    (getRecordsRun metaResp tableName filters limit offset sort fieldsP (.ok d)).result
      = .ok { input := getRecordsInputJson tableName filters limit offset sort fieldsP, output := d }
    ∧ getKey (getRecordsInputFields tableName filters limit offset sort fieldsP) "tableName"
      = some (.str tableName)
    ∧ getKey (getRecordsInputFields tableName filters limit offset sort fieldsP) "filters"
      = filters.map .str
    ∧ getKey (getRecordsInputFields tableName filters limit offset sort fieldsP) "limit"
      = limit.map .num
    ∧ getKey (getRecordsInputFields tableName filters limit offset sort fieldsP) "offset"
      = offset.map .num
    ∧ getKey (getRecordsInputFields tableName filters limit offset sort fieldsP) "sort"
      = sort.map .str
    ∧ getKey (getRecordsInputFields tableName filters limit offset sort fieldsP) "fields"
      = fieldsP.map .str
    ∧ (postRecordsRun metaResp tableName dataObj (.ok d)).result
      = .ok { input := dataObj, output := d }
    ∧ (patchRecordsRun metaResp tableName rowId data (.ok d)).result
      = .ok { input := .obj (patchBody data rowId), output := d }
    ∧ ((∀ p ∈ data, p.1 ≠ "id") →
        patchBody data rowId = data ++ [("id", .num rowId)]) := by
  refine ⟨?_, ?_, ?_, ?_, ?_, ?_, ?_, ?_, ?_, ?_⟩
  · simp [getRecordsRun, hres, getRecordsInputJson]
  · cases filters <;> cases limit <;> cases offset <;> cases sort <;> cases fieldsP <;>
      simp [getRecordsInputFields, optKey, getKey]
  · cases filters <;> cases limit <;> cases offset <;> cases sort <;> cases fieldsP <;>
      simp [getRecordsInputFields, optKey, getKey]
  · cases filters <;> cases limit <;> cases offset <;> cases sort <;> cases fieldsP <;>
      simp [getRecordsInputFields, optKey, getKey]
  · cases filters <;> cases limit <;> cases offset <;> cases sort <;> cases fieldsP <;>
      simp [getRecordsInputFields, optKey, getKey]
  · cases filters <;> cases limit <;> cases offset <;> cases sort <;> cases fieldsP <;>
      simp [getRecordsInputFields, optKey, getKey]
  · cases filters <;> cases limit <;> cases offset <;> cases sort <;> cases fieldsP <;>
      simp [getRecordsInputFields, optKey, getKey]
  · simp [postRecordsRun, hres]
  · simp [patchRecordsRun, hres]
  · intro h
    have hany : data.any (fun p => p.1 == "id") = false := by
      rw [List.any_eq_false]
      intro p hp
      simpa using h p hp
    simp [patchBody, setKey, hany]

/-- Witness for C6 (amended) at a concrete resolved table and backend
response. -/
theorem roundtrip_input_echo_witness :
    getTableIdRun (.ok (some [⟨"tbl1", "tasks"⟩])) "tasks" = .ok "tbl1"
    ∧ (getRecordsRun (.ok (some [⟨"tbl1", "tasks"⟩])) "tasks"
        none (some 10) none none none (.ok (.num 7))).result
      = .ok { input := getRecordsInputJson "tasks" none (some 10) none none none,
              output := .num 7 } :=
  ⟨rfl,
   (roundtrip_input_echo (.ok (some [⟨"tbl1", "tasks"⟩])) "tasks" "tbl1"
      none (some 10) none none none (.num 7) 5 [] .null rfl).1⟩

/-- C7 (counterexample): an HTTP failure of the records GET inside
`getRecords` is re-raised verbatim — the raised error keeps exactly the
original message, with no descriptive wrapping — while the same failure
inside `getListTables` is wrapped with a descriptive prefix; so the claim
that every backend failure is wrapped with a descriptive message "for
getRecords as it does for getListTables" fails on getRecords. -/
theorem backend_error_wrap_counterexample :
    (getRecordsRun (.ok (some [⟨"tbl1", "customers"⟩])) "customers"
        none none none none none
        (.err ⟨"Request failed with status code 502", some 502⟩)).result
      = .error ⟨"Request failed with status code 502", some 502⟩
    ∧ getListTablesRun (.err ⟨"Request failed with status code 502", some 502⟩)
      = .error ⟨"Error getting list of tables: Request failed with status code 502", none⟩
    ∧ ("Request failed with status code 502" : String)
      ≠ "Error getting list of tables: Request failed with status code 502" := by
  refine ⟨rfl, rfl, by decide⟩

/-- C7 (amended): no HTTP failure is swallowed and none is retried — each
operation issues its backend call once and surfaces the failure to its
caller; `getListTables` and the shared `getTableId` step wrap the failure in
a new error whose descriptive message embeds the original message, while
`getRecords` re-raises the original error object unchanged, preserving its
status and message exactly. -/
theorem backend_error_propagation (e : BackendErr)
    (metaResp : HttpResult (Option (List TableMeta))) (tableName tid : String)
    (filters : Option String) (limit offset : Option Int)
    (sort fieldsP : Option String)
    (hres : getTableIdRun metaResp tableName = .ok tid) :
    getListTablesRun (.err e)
      = .error ⟨"Error getting list of tables: " ++ e.message, none⟩
    ∧ getTableIdRun (.err e) tableName
      = .error ⟨"Error retrieving table ID: " ++ e.message, none⟩
    ∧ (getRecordsRun metaResp tableName filters limit offset sort fieldsP (.err e)).result
      = .error e
    ∧ (getRecordsRun metaResp tableName filters limit offset sort fieldsP (.err e)).mainCallIssued
      = true := by
  refine ⟨rfl, rfl, ?_, ?_⟩ <;> simp [getRecordsRun, hres]

/-- Witness for C7 (amended) at a concrete resolved table and failure. -/
theorem backend_error_propagation_witness :
    getTableIdRun (.ok (some [⟨"tbl1", "customers"⟩])) "customers" = .ok "tbl1"
    ∧ getListTablesRun (.err ⟨"boom", some 500⟩)
      = .error ⟨"Error getting list of tables: " ++ "boom", none⟩ :=
  ⟨rfl,
   (backend_error_propagation ⟨"boom", some 500⟩
      (.ok (some [⟨"tbl1", "customers"⟩])) "customers" "tbl1"
      none none none none none rfl).1⟩

/-- C8: when the backend's table listing holds no table titled `tableName`,
`getTableId` fails with a TableNotFound-flavoured error naming the missing
table; every dependent operation (record fetch, create, update, delete,
metadata, column add) fails with that same error before issuing its main
backend call; and when a matching title exists, `getTableId` returns the
matching table's id. -/
theorem tableNotFound_resolution (tables tables2 : List TableMeta)
    (tableName : String) (hmiss : ∀ t ∈ tables, t.title ≠ tableName)
    (filters : Option String) (limit offset : Option Int)
    (sort fieldsP : Option String)
    (recResp postResp patchResp delResp tblResp colResp : HttpResult JVal)
    (dataObj : JVal) (rowId : Int) (data : List (String × JVal))
    (columnName columnType : String) (options : Option LinkColumnOptions)
    (tbl : TableMeta)
    (hfind : tables2.find? (fun t => t.title == tableName) = some tbl) :
    getTableIdRun (.ok (some tables)) tableName
      = .error ⟨"Error retrieving table ID: " ++ ("Table '" ++ tableName ++ "' not found"), none⟩
    ∧ getRecordsRun (.ok (some tables)) tableName filters limit offset sort fieldsP recResp
      = ⟨.error ⟨"Error retrieving table ID: " ++ ("Table '" ++ tableName ++ "' not found"), none⟩, false⟩
    ∧ postRecordsRun (.ok (some tables)) tableName dataObj postResp
      = ⟨.error ⟨"Error retrieving table ID: " ++ ("Table '" ++ tableName ++ "' not found"), none⟩, false⟩
    ∧ patchRecordsRun (.ok (some tables)) tableName rowId data patchResp
      = ⟨.error ⟨"Error retrieving table ID: " ++ ("Table '" ++ tableName ++ "' not found"), none⟩, false⟩
    ∧ deleteRecordsRun (.ok (some tables)) tableName rowId delResp
      = ⟨.error ⟨"Error retrieving table ID: " ++ ("Table '" ++ tableName ++ "' not found"), none⟩, false⟩
    ∧ getTableMetadataRun (.ok (some tables)) tableName tblResp
      = ⟨.error ⟨"Error retrieving table ID: " ++ ("Table '" ++ tableName ++ "' not found"), none⟩, false⟩
    ∧ alterTableAddColumnRun (.ok (some tables)) tableName columnName columnType options colResp
      = ⟨.error ⟨"Error retrieving table ID: " ++ ("Table '" ++ tableName ++ "' not found"), none⟩, false⟩
    ∧ getTableIdRun (.ok (some tables2)) tableName = .ok tbl.id := by
  have hfn : tables.find? (fun t => t.title == tableName) = none := by
    rw [List.find?_eq_none]
    intro t ht
    simpa using hmiss t ht
  have htid : getTableIdRun (.ok (some tables)) tableName
      = .error ⟨"Error retrieving table ID: " ++ ("Table '" ++ tableName ++ "' not found"), none⟩ := by
    simp [getTableIdRun, tablesOf, hfn]
  refine ⟨htid, ?_, ?_, ?_, ?_, ?_, ?_, ?_⟩
  · simp [getRecordsRun, htid]
  · simp [postRecordsRun, htid]
  · simp [patchRecordsRun, htid]
  · simp [deleteRecordsRun, htid]
  · simp [getTableMetadataRun, htid]
  · simp [alterTableAddColumnRun, htid]
  · simp [getTableIdRun, tablesOf, hfind]

/-- Witness for C8: a backend with only an `orders` table rejects
`customers`, and one with a `customers` table resolves it. -/
theorem tableNotFound_resolution_witness :
    (getRecordsRun (.ok (some [⟨"tbl1", "orders"⟩])) "customers"
        none (some 10) none none none (.ok .null))
      = ⟨.error ⟨"Error retrieving table ID: " ++ ("Table '" ++ "customers" ++ "' not found"), none⟩, false⟩
    ∧ getTableIdRun (.ok (some [⟨"tbl9", "customers"⟩])) "customers" = .ok "tbl9" := by
  have h := tableNotFound_resolution [⟨"tbl1", "orders"⟩] [⟨"tbl9", "customers"⟩]
    "customers" (by decide) none (some 10) none none none
    (.ok .null) (.ok .null) (.ok .null) (.ok .null) (.ok .null) (.ok .null)
    .null 5 [] "c" "Number" none ⟨"tbl9", "customers"⟩ (by decide)
  exact ⟨h.2.1, h.2.2.2.2.2.2.2⟩

/-- C9: `createTable` prepends the column `{ title: "Id", uidt: "ID" }` to
the submitted column list exactly when no submitted column's title equals
`"id"` case-insensitively (the JS code mutates the caller's array in place
via `unshift`; observably, the payload's column list is the prepended list),
and sends the submitted list unchanged otherwise. -/
theorem createTable_autoId (cols : List TableColumnType) :
    ((∀ col ∈ cols, lowerString col.title ≠ "id") →
      createTablePayloadColumns cols = ⟨"Id", "ID"⟩ :: cols)
    ∧ ((∃ col ∈ cols, lowerString col.title = "id") →
      createTablePayloadColumns cols = cols) := by
  have hmap : ∀ l : List TableColumnType,
      l.map (fun col => (⟨col.title, col.uidt⟩ : TableColumnType)) = l :=
    fun l => List.map_id' l
  constructor
  · intro h
    have hany : cols.any (fun col => lowerString col.title == "id") = false := by
      rw [List.any_eq_false]
      intro col hc
      simpa using h col hc
    simp [createTablePayloadColumns, ensureIdColumn, hany, hmap]
  · rintro ⟨col, hc, hid⟩
    have hany : cols.any (fun col => lowerString col.title == "id") = true :=
      List.any_eq_true.mpr ⟨col, hc, by simpa using hid⟩
    simp [createTablePayloadColumns, ensureIdColumn, hany, hmap]

/-- Witness for C9: a list without an id column gets `Id` prepended; a list
whose first column is titled `ID` (case-insensitively `id`) is unchanged. -/
theorem createTable_autoId_witness :
    createTablePayloadColumns [⟨"Name", "SingleLineText"⟩]
      = [⟨"Id", "ID"⟩, ⟨"Name", "SingleLineText"⟩]
    ∧ createTablePayloadColumns [⟨"ID", "Number"⟩] = [⟨"ID", "Number"⟩] :=
  ⟨(createTable_autoId [⟨"Name", "SingleLineText"⟩]).1 (by decide),
   (createTable_autoId [⟨"ID", "Number"⟩]).2
     ⟨⟨"ID", "Number"⟩, by decide, by decide⟩⟩

/-- C10: an optional `getRecords` parameter appears in the generated query
exactly when its value is truthy; in particular `offset = 0` — accepted by
the tool's nonnegative-integer parameter contract — produces the same params
array, query string and request URL as omitting `offset` entirely, while a
nonzero offset does appear; the same falsy dropping applies to `filters`,
`limit`, `sort` and `fields`. -/
theorem offset_zero_dropped (tid : String) (filters : Option String)
    (limit : Option Int) (sort fieldsP : Option String) (n : Int) (v : String) :
    offsetParamAccepts 0 = true
    ∧ getRecordsParamsArray filters limit (some 0) sort fieldsP
      = getRecordsParamsArray filters limit none sort fieldsP
    ∧ getRecordsQueryString filters limit (some 0) sort fieldsP
      = getRecordsQueryString filters limit none sort fieldsP
    ∧ getRecordsRequestUrl tid filters limit (some 0) sort fieldsP
      = getRecordsRequestUrl tid filters limit none sort fieldsP
    ∧ (n ≠ 0 → getRecordsParamsArray none none (some n) none none
        = ["offset=" ++ toString n])
    ∧ getRecordsParamsArray filters (some 0) none sort fieldsP
      = getRecordsParamsArray filters none none sort fieldsP
    ∧ getRecordsParamsArray (some "") limit none sort fieldsP
      = getRecordsParamsArray none limit none sort fieldsP
    ∧ getRecordsParamsArray filters limit none (some "") fieldsP
      = getRecordsParamsArray filters limit none none fieldsP
    ∧ getRecordsParamsArray filters limit none sort (some "")
      = getRecordsParamsArray filters limit none sort none
    ∧ (v ≠ "" → getRecordsParamsArray (some v) none none none none
        = ["where=" ++ v]) := by
  refine ⟨rfl, ?_, ?_, ?_, ?_, ?_, ?_, ?_, ?_, ?_⟩
  · simp [getRecordsParamsArray]
  · simp [getRecordsQueryString, getRecordsParamsArray]
  · simp [getRecordsRequestUrl, getRecordsQueryString, getRecordsParamsArray]
  · intro h
    simp [getRecordsParamsArray, h]
  · simp [getRecordsParamsArray]
  · simp [getRecordsParamsArray]
  · simp [getRecordsParamsArray]
  · simp [getRecordsParamsArray]
  · intro h
    simp [getRecordsParamsArray, h]

/-- Witness for C10: `offset = 0` with concrete values of the other
parameters produces the same query string as omitting it, and a nonzero
offset appears. -/
theorem offset_zero_dropped_witness :
    getRecordsQueryString (some "(a,eq,b)") (some 25) (some 0) none none
      = getRecordsQueryString (some "(a,eq,b)") (some 25) none none none
    ∧ getRecordsParamsArray none none (some 100) none none
      = ["offset=" ++ toString (100 : Int)] :=
  ⟨(offset_zero_dropped "tbl1" (some "(a,eq,b)") (some 25) none none 100 "x").2.2.1,
   (offset_zero_dropped "tbl1" (some "(a,eq,b)") (some 25) none none 100 "x").2.2.2.2.1
     (by decide)⟩

end NocodbMcp
